import Mathlib

/-!
# Verification of the grading-calendar document/prediction pipeline

Shallow embedding of the Python sources (Firebase cloud functions in
`functions/`, standalone scripts in `backend/` and `Predict/`) of the
grading-calendar repository, together with proofs settling the frozen
claims about its specification.

Numbers are modelled as rationals (`ℚ`); Python dictionaries whose keys
may be absent are modelled as structures with `Option` fields (a `none`
field is an absent key); Firestore collections are modelled as
association lists keyed by document id, where `set` overwrites the
record under an existing id and creates it otherwise; Python exceptions
are modelled with `Except`, and the `try/except Exception` blocks of the
source are modelled by an explicit wrapping step applied to the result
of the embedded `try` body.
-/

namespace GradingCalendar

/-- Lookup in a Firestore collection modelled as an association list
(first binding for the key wins; ids are unique by construction). -/
def findKey {α : Type} (k : String) : List (String × α) → Option α
  | [] => none
  | (k', v) :: rest => if k' = k then some v else findKey k rest

/-- Firestore `document(id).set(data)`: overwrite the record under an
existing id, create it otherwise. -/
def setKey {α : Type} (k : String) (v : α) : List (String × α) → List (String × α)
  | [] => [(k, v)]
  | (k', v') :: rest => if k' = k then (k, v) :: rest else (k', v') :: setKey k v rest

/-- Error codes of `https_fn.FunctionsErrorCode` used by the sources. -/
inductive ErrorCode : Type
  | UNAUTHENTICATED
  | INVALID_ARGUMENT
  | NOT_FOUND
  | PERMISSION_DENIED
  | INTERNAL
deriving DecidableEq, Repr

/-- An `https_fn.HttpsError(code=..., message=...)`. -/
structure HttpsErr : Type where
  code : ErrorCode
  message : String
deriving DecidableEq, Repr

/-! ## Prediction combiner (`functions/combined_predict.py`) -/

/-- The `confidence` values assigned in `get_combined_prediction`. -/
inductive Confidence : Type
  | low
  | medium
  | high
deriving DecidableEq, Repr

/-- The `combined_prediction` dict built in
`functions/combined_predict.py`, lines 66-79. -/
structure CombinedPrediction : Type where
  grade : ℚ
  chatgpt_grade : ℚ
  ml_grade : ℚ
  reasoning : String
  confidence : Confidence
deriving DecidableEq, Repr

/-- Lines 62-79 of `functions/combined_predict.py`: average the two
grades, default the confidence to `medium`, then raise it to `high`
when the grades differ by less than 5 and lower it to `low` when they
differ by more than 15.  `chatgptReasoning` is
`chatgpt_prediction["prediction"]["reasoning"]`. -/
def combinePrediction (chatgptGrade mlGrade : ℚ) (chatgptReasoning : String) :
    CombinedPrediction :=
  let combined_grade := (chatgptGrade + mlGrade) / 2
  let base : CombinedPrediction :=
    { grade := combined_grade
      chatgpt_grade := chatgptGrade
      ml_grade := mlGrade
      reasoning := chatgptReasoning
      confidence := Confidence.medium }
  let grade_difference := |chatgptGrade - mlGrade|
  if grade_difference < 5 then { base with confidence := Confidence.high }
  else if grade_difference > 15 then { base with confidence := Confidence.low }
  else base

/-- Normal form of `combinePrediction`: the field-update chain of the
source collapses to one record whose confidence is picked by the two
threshold tests. -/
theorem combinePrediction_eq (pg rg : ℚ) (r : String) :
    combinePrediction pg rg r =
      { grade := (pg + rg) / 2
        chatgpt_grade := pg
        ml_grade := rg
        reasoning := r
        confidence :=
          if |pg - rg| < 5 then Confidence.high
          else if 15 < |pg - rg| then Confidence.low
          else Confidence.medium } := by
  unfold combinePrediction
  by_cases h5 : |pg - rg| < 5
  · simp [h5]
  · by_cases h15 : 15 < |pg - rg| <;> simp [h5, h15, gt_iff_lt]

/-- C1: `combinePrediction` returns the arithmetic mean of the two
grades, takes the reasoning verbatim from the prompt-based prediction,
assigns confidence `high` exactly when the grades differ by less than
5, `low` exactly when they differ by more than 15 and `medium`
otherwise, and on the concrete pairs (90,92), (90,70), (90,82) returns
grade 91 with `high`, grade 80 with `low`, and `medium` respectively. -/
theorem C1_combine_mean_confidence_reasoning (pg rg : ℚ) (r : String) :
    (combinePrediction pg rg r).grade = (pg + rg) / 2 ∧
    (combinePrediction pg rg r).reasoning = r ∧
    ((combinePrediction pg rg r).confidence = Confidence.high ↔ |pg - rg| < 5) ∧
    ((combinePrediction pg rg r).confidence = Confidence.low ↔ 15 < |pg - rg|) ∧
    ((combinePrediction pg rg r).confidence = Confidence.medium ↔
      5 ≤ |pg - rg| ∧ |pg - rg| ≤ 15) ∧
    combinePrediction 90 92 r =
      { grade := 91, chatgpt_grade := 90, ml_grade := 92, reasoning := r,
        confidence := Confidence.high } ∧
    combinePrediction 90 70 r =
      { grade := 80, chatgpt_grade := 90, ml_grade := 70, reasoning := r,
        confidence := Confidence.low } ∧
    (combinePrediction 90 82 r).confidence = Confidence.medium := by
  have d1 : |(90 : ℚ) - 92| < 5 := by rw [abs_lt]; norm_num
  have d2 : ¬ |(90 : ℚ) - 70| < 5 := by rw [abs_lt]; norm_num
  have d2' : (15 : ℚ) < |(90 : ℚ) - 70| := by rw [lt_abs]; norm_num
  have d3 : ¬ |(90 : ℚ) - 82| < 5 := by rw [abs_lt]; norm_num
  have d3' : ¬ (15 : ℚ) < |(90 : ℚ) - 82| := by rw [lt_abs]; norm_num
  refine ⟨?_, ?_, ?_, ?_, ?_, ?_, ?_, ?_⟩
  · rw [combinePrediction_eq]
  · rw [combinePrediction_eq]
  · rw [combinePrediction_eq]
    by_cases h5 : |pg - rg| < 5
    · simp [h5]
    · by_cases h15 : 15 < |pg - rg| <;> simp [h5, h15]
  · rw [combinePrediction_eq]
    by_cases h5 : |pg - rg| < 5
    · simp [h5]; linarith
    · by_cases h15 : 15 < |pg - rg| <;> simp [h5, h15]
  · rw [combinePrediction_eq]
    by_cases h5 : |pg - rg| < 5
    · simp [h5]
    · by_cases h15 : 15 < |pg - rg|
      · simp [h5, h15]
      · simp [h5, h15]; constructor <;> linarith
  · rw [combinePrediction_eq]
    simp [d1]
    norm_num
  · rw [combinePrediction_eq]
    simp [d2, d2']
    norm_num
  · rw [combinePrediction_eq]
    simp [d3, d3']

/-- A stored prediction document as read by `get_combined_prediction`:
only the nested `prediction` dict's `grade` and `reasoning` are
consulted (lines 59-70 of `functions/combined_predict.py`). -/
structure StoredPrediction : Type where
  grade : ℚ
  reasoning : String
deriving DecidableEq, Repr

/-- The `combined_data` dict persisted on lines 84-91 of
`functions/combined_predict.py`. -/
structure CombinedDoc : Type where
  chatgptPrediction : StoredPrediction
  mlPrediction : StoredPrediction
  combinedPrediction : CombinedPrediction
deriving DecidableEq, Repr

/-- The slice of Firestore touched by `get_combined_prediction`, seen
from one authenticated user: the per-user `predictions`,
`ml_predictions` and `combined_predictions` collections. -/
structure PredictionStore : Type where
  predictions : List (String × StoredPrediction)
  ml_predictions : List (String × StoredPrediction)
  combined_predictions : List (String × CombinedDoc)
deriving DecidableEq, Repr

/-- The success payload returned by `get_combined_prediction`. -/
structure CombinedOutput : Type where
  predictionId : String
  prediction : CombinedPrediction
deriving DecidableEq, Repr

/-- `get_combined_prediction` (`functions/combined_predict.py`, lines
7-103).  `auth` is `req.auth` (the caller's uid), the two ids are
`req.data.get(...)` results (`none` models an absent key, and an empty
string is falsy like a missing one), and `newId` is the fresh document
id produced by `combined_ref = ...document()` on line 82.  The whole
lookup/combine/persist sequence sits inside `try: ... except Exception`
(lines 31-103), so any `HttpsError` raised inside it — including the
NOT_FOUND errors of lines 38-42 and 50-54 — is caught on line 99 and
re-raised with code INTERNAL.  The function returns the store after the
call together with the result, so an error outcome carries the
unchanged store. -/
def get_combined_prediction (s : PredictionStore) (auth : Option String)
    (chatgptPredictionId mlPredictionId : Option String) (newId : String) :
    PredictionStore × Except HttpsErr CombinedOutput :=
  match auth with
  | none => (s, Except.error ⟨ErrorCode.UNAUTHENTICATED, "User must be authenticated"⟩)
  | some _ =>
    if chatgptPredictionId.getD "" = "" ∨ mlPredictionId.getD "" = "" then
      (s, Except.error ⟨ErrorCode.INVALID_ARGUMENT,
        "Both ChatGPT and ML prediction IDs are required"⟩)
    else
      let body : PredictionStore × Except HttpsErr CombinedOutput :=
        match findKey (chatgptPredictionId.getD "") s.predictions with
        | none => (s, Except.error ⟨ErrorCode.NOT_FOUND, "ChatGPT prediction not found"⟩)
        | some chatgpt_prediction =>
          match findKey (mlPredictionId.getD "") s.ml_predictions with
          | none => (s, Except.error ⟨ErrorCode.NOT_FOUND, "ML prediction not found"⟩)
          | some ml_prediction =>
            let combined_prediction :=
              combinePrediction chatgpt_prediction.grade ml_prediction.grade
                chatgpt_prediction.reasoning
            let s' := { s with combined_predictions := setKey newId ⟨chatgpt_prediction, ml_prediction, combined_prediction⟩ s.combined_predictions }
            (s', Except.ok ⟨newId, combined_prediction⟩)
      match body with
      | (s', Except.error e) =>
          (s', Except.error ⟨ErrorCode.INTERNAL,
            "Error getting combined prediction: " ++ e.message⟩)
      | ok => ok

/-- C3 (code bug): calling `get_combined_prediction` with an id that
refers to no stored prediction of the caller does leave the
`combined_predictions` collection untouched, but the surfaced error
carries code INTERNAL, not NOT_FOUND: the NOT_FOUND `HttpsError` the
code raises is swallowed by its own `except Exception` handler and
re-raised as INTERNAL.  Evaluated here at a store holding one ML
prediction and no ChatGPT prediction (first conjunct) and at a store
holding one ChatGPT prediction and no ML prediction (second
conjunct). -/
theorem C3_missing_prediction_internal_store_unchanged :
    (get_combined_prediction ⟨[], [("m1", ⟨75, ""⟩)], []⟩ (some "user1")
        (some "missing") (some "m1") "c1" =
      (⟨[], [("m1", ⟨75, ""⟩)], []⟩,
       Except.error ⟨ErrorCode.INTERNAL,
         "Error getting combined prediction: ChatGPT prediction not found"⟩)) ∧
    (get_combined_prediction ⟨[("p1", ⟨90, "ok"⟩)], [], []⟩ (some "user1")
        (some "p1") (some "missing") "c1" =
      (⟨[("p1", ⟨90, "ok"⟩)], [], []⟩,
       Except.error ⟨ErrorCode.INTERNAL,
         "Error getting combined prediction: ML prediction not found"⟩)) ∧
    ErrorCode.INTERNAL ≠ ErrorCode.NOT_FOUND := by
  refine ⟨?_, ?_, ?_⟩
  · simp [get_combined_prediction, findKey]
  · simp [get_combined_prediction, findKey]
  · intro h
    exact ErrorCode.noConfusion h

instance {ε α : Type} [DecidableEq ε] [DecidableEq α] : DecidableEq (Except ε α) := fun x y =>
  match x, y with
  | Except.error a, Except.error b =>
      if h : a = b then isTrue (by rw [h])
      else isFalse (by intro hh; cases hh; exact h rfl)
  | Except.ok a, Except.ok b =>
      if h : a = b then isTrue (by rw [h])
      else isFalse (by intro hh; cases hh; exact h rfl)
  | Except.error _, Except.ok _ => isFalse (by intro h; cases h)
  | Except.ok _, Except.error _ => isFalse (by intro h; cases h)

/-! ## Document upload, OCR trigger and status query
(`functions/document_processing.py`, `functions/ocr.py`,
`backend/pdf_parser.py`) -/

/-- Helper for `pySplit`: split a character list at a separator. -/
def splitChar (sep : Char) : List Char → List (List Char)
  | [] => [[]]
  | c :: rest =>
    let r := splitChar sep rest
    if c = sep then [] :: r
    else
      match r with
      | [] => [[c]]
      | g :: gs => (c :: g) :: gs

/-- Python `str.split(sep)` for a one-character separator (Lean's
`String.splitOn` is not kernel-reducible, so the embedding uses a
structurally recursive equivalent). -/
def pySplit (s : String) (sep : Char) : List String :=
  (splitChar sep s.data).map String.mk

/-- Python `str.startswith(p)`. -/
def pyStartsWith (s p : String) : Bool :=
  p.data.isPrefixOf s.data

/-- Python `sep.join(parts)`. -/
def pyJoin (sep : String) : List String → String
  | [] => ""
  | [x] => x
  | x :: xs => x ++ sep ++ pyJoin sep xs

/-- Python `str.strip()`: drop leading and trailing whitespace. -/
def pyStrip (s : String) : String :=
  String.mk (((s.data.dropWhile Char.isWhitespace).reverse.dropWhile Char.isWhitespace).reverse)

/-- A record of a document collection, seen as a dict: a `none` field
is an absent key.  Records of `users/.../document_uploads` (written on
lines 63-70 of `functions/document_processing.py`) carry `filePath`,
`documentType` and `status` but no `text`; records of
`users/.../documents` (written on lines 48-52 of `functions/ocr.py`)
carry `text` and `filePath` but neither `documentType` nor `status`.
The `uploadedAt` timestamp is not modelled. -/
structure DocRecord : Type where
  filePath : String
  documentType : Option String
  status : Option String
  text : Option String
deriving DecidableEq, Repr

/-- The document-pipeline slice of Firestore for one user:
`document_uploads` keyed by generated document id and `documents`
keyed by document type. -/
structure DocStore : Type where
  document_uploads : List (String × DocRecord)
  documents : List (String × DocRecord)
deriving DecidableEq, Repr

/-- The success payload of `upload_and_process_document`. -/
structure UploadOutput : Type where
  documentId : String
  filePath : String
deriving DecidableEq, Repr

/-- `upload_and_process_document` (`functions/document_processing.py`,
lines 10-83).  `newId` is the fresh id generated by
`.collection("document_uploads").document()` on line 61 and `filename`
the uuid-based filename of line 40; binary storage upload is an
external collaborator and is not modelled.  The record set on line 70
has keys `filePath`, `documentType`, `uploadedAt`, `status` — and no
`text`. -/
def upload_and_process_document (s : DocStore) (auth : Option String)
    (documentType documentBase64 : Option String) (newId filename : String) :
    DocStore × Except HttpsErr UploadOutput :=
  match auth with
  | none => (s, Except.error ⟨ErrorCode.UNAUTHENTICATED, "User must be authenticated"⟩)
  | some user_id =>
    let dt := documentType.getD ""
    if dt = "" ∨ (dt ≠ "syllabus" ∧ dt ≠ "transcript") then
      (s, Except.error ⟨ErrorCode.INVALID_ARGUMENT,
        "Valid document type (syllabus or transcript) is required"⟩)
    else if documentBase64.getD "" = "" then
      (s, Except.error ⟨ErrorCode.INVALID_ARGUMENT, "Document data is required"⟩)
    else
      let file_path := "users/" ++ user_id ++ "/" ++ dt ++ "/" ++ filename
      let doc_data : DocRecord :=
        { filePath := file_path, documentType := some dt, status := some "uploaded", text := none }
      ({ s with document_uploads := setKey newId doc_data s.document_uploads },
       Except.ok ⟨newId, file_path⟩)

/-- `process_uploaded_pdf` (`functions/ocr.py`, lines 13-62), the
storage-triggered extraction for the user owning `s`: bail out silently
unless the path starts with `users/` and has at least four segments,
join the page texts extracted by PyMuPDF (the `pages` parameter stands
for the OCR collaborator), and store the result — with no emptiness
check — under `documents/` keyed by the type segment of the path.  The
follow-up structured extraction (lines 54-58) writes to collections
outside this model. -/
def process_uploaded_pdf (s : DocStore) (filePath : String) (pages : List String) :
    DocStore :=
  if ¬ pyStartsWith filePath "users/" then s
  else
    let path_parts := pySplit filePath '/'
    if path_parts.length < 4 then s
    else
      let document_type := path_parts.getD 2 ""
      let text := pyJoin "\n" pages
      let record : DocRecord :=
        { filePath := filePath, documentType := none, status := none, text := some text }
      { s with documents := setKey document_type record s.documents }

/-- `get_document_status` (`functions/document_processing.py`, lines
85-142): look the upload record up by id, and when the `documents`
record of the same type has a matching `filePath`, mark the upload
record `processed` both in the returned dict and in the store.  The
whole body sits in `try: ... except Exception`, so the NOT_FOUND raised
on lines 112-115 surfaces as INTERNAL. -/
def get_document_status (s : DocStore) (auth : Option String) (documentId : Option String) :
    DocStore × Except HttpsErr DocRecord :=
  match auth with
  | none => (s, Except.error ⟨ErrorCode.UNAUTHENTICATED, "User must be authenticated"⟩)
  | some _ =>
    if documentId.getD "" = "" then
      (s, Except.error ⟨ErrorCode.INVALID_ARGUMENT, "Document ID is required"⟩)
    else
      let body : DocStore × Except HttpsErr DocRecord :=
        match findKey (documentId.getD "") s.document_uploads with
        | none => (s, Except.error ⟨ErrorCode.NOT_FOUND, "Document not found"⟩)
        | some doc_data =>
          match doc_data.documentType with
          | none => (s, Except.ok doc_data)
          | some document_type =>
            match findKey document_type s.documents with
            | none => (s, Except.ok doc_data)
            | some processed_data =>
              if processed_data.filePath = doc_data.filePath then
                let updated := { doc_data with status := some "processed" }
                ({ s with document_uploads := setKey (documentId.getD "") updated s.document_uploads },
                 Except.ok updated)
              else (s, Except.ok doc_data)
      match body with
      | (s', Except.error e) =>
          (s', Except.error ⟨ErrorCode.INTERNAL, "Error getting document status: " ++ e.message⟩)
      | ok => ok

/-- The invariant claimed for Document records: the `text` key is
present exactly when the `status` key holds `processed`. -/
def textIffProcessed (r : DocRecord) : Prop :=
  r.text.isSome ↔ r.status = some "processed"

/-- The document-pipeline states reachable from an empty store through
the three lifecycle operations. -/
inductive DocReach : DocStore → Prop
  | init : DocReach ⟨[], []⟩
  | upload (s : DocStore) (auth dt data : Option String) (newId filename : String) :
      DocReach s → DocReach (upload_and_process_document s auth dt data newId filename).1
  | ocr (s : DocStore) (filePath : String) (pages : List String) :
      DocReach s → DocReach (process_uploaded_pdf s filePath pages)
  | status (s : DocStore) (auth documentId : Option String) :
      DocReach s → DocReach (get_document_status s auth documentId).1

/-! ### Store lemmas -/

theorem findKey_setKey {α : Type} (k k' : String) (v : α) (l : List (String × α)) :
    findKey k (setKey k' v l) = if k' = k then some v else findKey k l := by
  induction l with
  | nil => by_cases h : k' = k <;> simp [setKey, findKey, h]
  | cons p rest ih =>
    obtain ⟨a, b⟩ := p
    by_cases h1 : a = k'
    · subst h1
      by_cases h : a = k <;> simp [setKey, findKey, h]
    · have h1' : ¬ (k' = a) := fun hh => h1 hh.symm
      by_cases h : a = k
      · subst h
        simp [setKey, findKey, h1, h1']
      · simp [setKey, findKey, h1, h, ih]

theorem findKey_setKey_forall {α : Type} (P : α → Prop) (k : String) (v : α)
    (l : List (String × α)) (hl : ∀ k' r, findKey k' l = some r → P r) (hv : P v) :
    ∀ k' r, findKey k' (setKey k v l) = some r → P r := by
  intro k' r h
  rw [findKey_setKey] at h
  by_cases hk : k = k'
  · rw [if_pos hk] at h
    cases h
    exact hv
  · rw [if_neg hk] at h
    exact hl k' r h

theorem setKey_fresh {α : Type} (k : String) (v : α) (l : List (String × α))
    (h : findKey k l = none) : setKey k v l = l ++ [(k, v)] := by
  induction l with
  | nil => simp [setKey]
  | cons p rest ih =>
    obtain ⟨a, b⟩ := p
    by_cases hak : a = k
    · rw [findKey, if_pos hak] at h
      cases h
    · rw [findKey, if_neg hak] at h
      simp [setKey, hak, ih h]

/-! ### C2: the text-iff-processed invariant -/

/-- C2 counterexample: after an upload, the OCR trigger and a status
query, the upload record returned (and stored) by `get_document_status`
has status `processed` but no `text` key, so the claimed invariant
"text present iff status = processed" fails on it. -/
theorem C2_counterexample_status_without_text :
    ((get_document_status
        (process_uploaded_pdf
          (upload_and_process_document ⟨[], []⟩ (some "u") (some "syllabus") (some "data")
            "d1" "f.pdf").1
          "users/u/syllabus/f.pdf" ["hello"])
        (some "u") (some "d1")).2 =
      Except.ok ⟨"users/u/syllabus/f.pdf", some "syllabus", some "processed", none⟩) ∧
    ¬ textIffProcessed ⟨"users/u/syllabus/f.pdf", some "syllabus", some "processed", none⟩ := by
  constructor
  · decide
  · simp [textIffProcessed]

/-- C2 amended: in every state reachable through the lifecycle
operations, upload records (`document_uploads`) never carry a `text`
key — whatever their status, including `processed` — while
extracted-text records (`documents`) always carry `text` and never a
`status` key.  Text presence is thus tracked independently of the
status field, not in an iff with it. -/
theorem C2_amended_text_and_status_live_apart (s : DocStore) (h : DocReach s) :
    (∀ id r, findKey id s.document_uploads = some r → r.text = none) ∧
    (∀ t r, findKey t s.documents = some r → r.text.isSome ∧ r.status = none) := by
  induction h with
  | init =>
    constructor <;> intro k r hk <;> simp [findKey] at hk
  | upload s auth dt data newId filename _ ih =>
    obtain ⟨ih1, ih2⟩ := ih
    cases auth with
    | none => exact ⟨ih1, ih2⟩
    | some uid =>
      by_cases hval : dt.getD "" = "" ∨ (dt.getD "" ≠ "syllabus" ∧ dt.getD "" ≠ "transcript")
      · simpa [upload_and_process_document, hval] using ⟨ih1, ih2⟩
      · by_cases hdata : data.getD "" = ""
        · simpa [upload_and_process_document, hval, hdata] using ⟨ih1, ih2⟩
        · constructor
          · simp only [upload_and_process_document, if_neg hval, if_neg hdata]
            exact findKey_setKey_forall _ _ _ _ ih1 rfl
          · simpa [upload_and_process_document, hval, hdata] using ih2
  | ocr s filePath pages _ ih =>
    obtain ⟨ih1, ih2⟩ := ih
    by_cases hs : ¬ pyStartsWith filePath "users/"
    · simpa [process_uploaded_pdf, hs] using ⟨ih1, ih2⟩
    · by_cases hlen : (pySplit filePath '/').length < 4
      · simpa [process_uploaded_pdf, hs, hlen] using ⟨ih1, ih2⟩
      · constructor
        · simpa [process_uploaded_pdf, hs, hlen] using ih1
        · simp only [process_uploaded_pdf, if_neg hs, if_neg hlen]
          exact findKey_setKey_forall _ _ _ _ ih2 ⟨rfl, rfl⟩
  | status s auth documentId _ ih =>
    obtain ⟨ih1, ih2⟩ := ih
    cases auth with
    | none => exact ⟨ih1, ih2⟩
    | some uid =>
      by_cases hid : documentId.getD "" = ""
      · simpa [get_document_status, hid] using ⟨ih1, ih2⟩
      · rcases hfound : findKey (documentId.getD "") s.document_uploads with _ | doc_data
        · simpa [get_document_status, hid, hfound] using ⟨ih1, ih2⟩
        · rcases hdt : doc_data.documentType with _ | document_type
          · simpa [get_document_status, hid, hfound, hdt] using ⟨ih1, ih2⟩
          · rcases hproc : findKey document_type s.documents with _ | processed_data
            · simpa [get_document_status, hid, hfound, hdt, hproc] using ⟨ih1, ih2⟩
            · by_cases hfp : processed_data.filePath = doc_data.filePath
              · constructor
                · simp only [get_document_status, if_neg hid, hfound, hdt, hproc, if_pos hfp]
                  refine findKey_setKey_forall _ _ _ _ ih1 ?_
                  show doc_data.text = none
                  exact ih1 _ _ hfound
                · simpa [get_document_status, hid, hfound, hdt, hproc, hfp] using ih2
              · simpa [get_document_status, hid, hfound, hdt, hproc, hfp] using ⟨ih1, ih2⟩

/-- Witness for C2 amended, at the reachable state of the
counterexample run: the queried upload record is stored with status
`processed`, and the theorem yields that its `text` is absent. -/
theorem C2_amended_witness :
    (findKey "d1"
        ((get_document_status
          (process_uploaded_pdf
            (upload_and_process_document ⟨[], []⟩ (some "u") (some "syllabus") (some "data")
              "d1" "f.pdf").1
            "users/u/syllabus/f.pdf" ["hello"])
          (some "u") (some "d1")).1).document_uploads =
      some ⟨"users/u/syllabus/f.pdf", some "syllabus", some "processed", none⟩) ∧
    (⟨"users/u/syllabus/f.pdf", some "syllabus", some "processed", none⟩ : DocRecord).text = none := by
  constructor
  · decide
  · exact (C2_amended_text_and_status_live_apart _
      (DocReach.status _ (some "u") (some "d1")
        (DocReach.ocr _ "users/u/syllabus/f.pdf" ["hello"]
          (DocReach.upload _ (some "u") (some "syllabus") (some "data") "d1" "f.pdf"
            DocReach.init)))).1 "d1" _ (by decide)

/-! ### C8: upload idempotence per (owner, type) -/

/-- Number of `document_uploads` records carrying a given
`documentType`. -/
def uploadCountOfType (s : DocStore) (t : String) : Nat :=
  (s.document_uploads.filter fun p => decide (p.2.documentType = some t)).length

/-- C8 counterexample: two uploads of the same type for the same owner
(with the two fresh document ids `.document()` generates) leave two
upload records of that type, not exactly one. -/
theorem C8_counterexample_two_records :
    uploadCountOfType
      ((upload_and_process_document
        (upload_and_process_document ⟨[], []⟩ (some "u") (some "syllabus") (some "data")
          "a" "f1.pdf").1
        (some "u") (some "syllabus") (some "data") "b" "f2.pdf").1) "syllabus" = 2 ∧
    (2 : Nat) ≠ 1 := by
  constructor
  · decide
  · decide

/-- C8 amended: `upload_and_process_document` is not idempotent per
(owner, type): each call stores a brand-new record under the fresh
generated id, so two uploads of the same type add two records of that
type, each with status `uploaded` and no `text` key; the prior record
is kept, not replaced. -/
theorem C8_amended_each_upload_adds_record (s : DocStore) (uid data t id1 id2 f1 f2 : String)
    (ht : t = "syllabus" ∨ t = "transcript") (hdata : data ≠ "")
    (hne : id1 ≠ id2)
    (h1 : findKey id1 s.document_uploads = none)
    (h2 : findKey id2 s.document_uploads = none) :
    (upload_and_process_document
        (upload_and_process_document s (some uid) (some t) (some data) id1 f1).1
        (some uid) (some t) (some data) id2 f2).1.document_uploads =
      s.document_uploads ++
        [(id1, ⟨"users/" ++ uid ++ "/" ++ t ++ "/" ++ f1, some t, some "uploaded", none⟩),
         (id2, ⟨"users/" ++ uid ++ "/" ++ t ++ "/" ++ f2, some t, some "uploaded", none⟩)] ∧
    uploadCountOfType
      (upload_and_process_document
        (upload_and_process_document s (some uid) (some t) (some data) id1 f1).1
        (some uid) (some t) (some data) id2 f2).1 t =
      uploadCountOfType s t + 2 := by
  have hval : ¬ ((some t : Option String).getD "" = "" ∨
      ((some t : Option String).getD "" ≠ "syllabus" ∧
       (some t : Option String).getD "" ≠ "transcript")) := by
    rcases ht with h | h <;> subst h <;> simp
  have hdata' : ¬ ((some data : Option String).getD "" = "") := by simpa using hdata
  have step1 :
      (upload_and_process_document s (some uid) (some t) (some data) id1 f1).1.document_uploads =
        s.document_uploads ++
          [(id1, ⟨"users/" ++ uid ++ "/" ++ t ++ "/" ++ f1, some t, some "uploaded", none⟩)] := by
    simp only [upload_and_process_document, if_neg hval, if_neg hdata']
    exact setKey_fresh _ _ _ h1
  have step2 :
      (upload_and_process_document
        (upload_and_process_document s (some uid) (some t) (some data) id1 f1).1
        (some uid) (some t) (some data) id2 f2).1.document_uploads =
      (upload_and_process_document s (some uid) (some t) (some data)
        id1 f1).1.document_uploads ++
        [(id2, ⟨"users/" ++ uid ++ "/" ++ t ++ "/" ++ f2, some t, some "uploaded", none⟩)] := by
    simp only [upload_and_process_document, if_neg hval, if_neg hdata']
    refine setKey_fresh _ _ _ ?_
    rw [findKey_setKey, if_neg hne]
    exact h2
  constructor
  · rw [step2, step1, List.append_assoc]
    rfl
  · unfold uploadCountOfType
    rw [step2, step1, List.append_assoc, List.filter_append, List.length_append]
    simp

/-- Witness for C8 amended at concrete input. -/
theorem C8_amended_each_upload_adds_record_witness :
    (("a" : String) ≠ "b") ∧
    uploadCountOfType
      (upload_and_process_document
        (upload_and_process_document ⟨[], []⟩ (some "u") (some "syllabus") (some "data")
          "a" "f1.pdf").1
        (some "u") (some "syllabus") (some "data") "b" "f2.pdf").1 "syllabus" =
      uploadCountOfType (⟨[], []⟩ : DocStore) "syllabus" + 2 := by
  constructor
  · decide
  · exact (C8_amended_each_upload_adds_record ⟨[], []⟩ "u" "data" "syllabus" "a" "b" "f1.pdf"
      "f2.pdf" (Or.inl rfl) (by decide) (by decide) rfl rfl).2

/-! ### C9: empty-text handling of the two extraction paths -/

/-- Python exceptions raised by the embedded code. -/
inductive PyExc : Type
  | FileNotFoundError (msg : String)
  | ValueError (msg : String)
  | KeyError (key : String)
  | ZeroDivisionError
deriving DecidableEq, Repr

/-- `extract_text_from_pdf` (`backend/pdf_parser.py`, lines 11-20):
join the page texts extracted by PyMuPDF (the `pages` parameter stands
for that collaborator; `fileExists` for the filesystem check) and raise
`ValueError` when the joined text is empty after stripping. -/
def extract_text_from_pdf (fileExists : Bool) (pdfPath : String) (pages : List String) :
    Except PyExc String :=
  if ¬ fileExists then
    Except.error (PyExc.FileNotFoundError ("File not found: " ++ pdfPath))
  else
    let text := pyJoin "\n" pages
    if pyStrip text = "" then
      Except.error (PyExc.ValueError
        "No text extracted from the PDF. Check if the file is scanned or empty.")
    else
      Except.ok text

/-- C9 counterexample: the storage-triggered extraction path
(`process_uploaded_pdf`) records an empty extracted text as a
successful extraction — it stores `text = ""` under `documents/` and
raises nothing — so "text extraction never records empty text" fails
for it. -/
theorem C9_counterexample_empty_text_recorded :
    findKey "syllabus"
        (process_uploaded_pdf ⟨[], []⟩ "users/u/syllabus/f.pdf" [""]).documents =
      some ⟨"users/u/syllabus/f.pdf", none, none, some ""⟩ ∧
    pyStrip "" = "" := by
  constructor
  · decide
  · decide

/-- C9 amended: only the standalone backend extractor rejects empty or
whitespace-only output — `extract_text_from_pdf` raises `ValueError`
(the EmptyDocumentError of the spec) whenever the joined page text
strips to empty — while the storage-triggered pipeline path stores
whatever text was joined, without any emptiness check. -/
theorem C9_amended_only_backend_rejects_empty (pdfPath : String) (pages : List String)
    (s : DocStore) (h : pyStrip (pyJoin "\n" pages) = "") :
    extract_text_from_pdf true pdfPath pages =
      Except.error (PyExc.ValueError
        "No text extracted from the PDF. Check if the file is scanned or empty.") ∧
    (process_uploaded_pdf s "users/u/syllabus/f.pdf" pages).documents =
      setKey "syllabus"
        ⟨"users/u/syllabus/f.pdf", none, none, some (pyJoin "\n" pages)⟩ s.documents := by
  constructor
  · simp [extract_text_from_pdf, h]
  · have hs : pyStartsWith "users/u/syllabus/f.pdf" "users/" = true := by decide
    have hlen : ¬ (pySplit "users/u/syllabus/f.pdf" '/').length < 4 := by decide
    simp [process_uploaded_pdf, hs, hlen]
    rfl

/-- Witness for C9 amended at the concrete whitespace-only page list. -/
theorem C9_amended_only_backend_rejects_empty_witness :
    pyStrip (pyJoin "\n" [" ", "\t"]) = "" ∧
    extract_text_from_pdf true "doc.pdf" [" ", "\t"] =
      Except.error (PyExc.ValueError
        "No text extracted from the PDF. Check if the file is scanned or empty.") := by
  refine ⟨by decide, ?_⟩
  exact (C9_amended_only_backend_rejects_empty "doc.pdf" [" ", "\t"] ⟨[], []⟩ (by decide)).1

/-! ## Regression predictor and training data
(`functions/ml_predict.py`, `Predict/LinearRegression_predict.py`) -/

/-- The `transcript` sub-dict of a `studentData` payload; a `none`
field is an absent key. -/
structure TranscriptData : Type where
  GPA : Option ℚ
deriving DecidableEq, Repr

/-- The `syllabus_info` sub-dict of a `studentData` payload. -/
structure SyllabusInfo : Type where
  assignment_weight : Option ℚ
  exam_weight : Option ℚ
deriving DecidableEq, Repr

/-- A `studentData` dict as accepted by `predict_with_linear_regression`
and `add_training_data`; a `none` field is an absent key.  Per the
data model the payload carries no `id` key: ids are assigned by
`add_training_data` itself. -/
structure StudentData : Type where
  previous_grades : Option (List ℚ)
  transcript : Option TranscriptData
  syllabus_info : Option SyllabusInfo
  final_grade : Option ℚ
deriving DecidableEq, Repr

/-- Python dict truthiness: a `studentData` dict with no keys is falsy
(`if not student_data`). -/
def StudentData.isEmptyDict (sd : StudentData) : Bool :=
  sd.previous_grades.isNone && sd.transcript.isNone &&
    sd.syllabus_info.isNone && sd.final_grade.isNone

/-- A stored entry of the `training_data/students` record: the payload
plus the `id` assigned on insertion. -/
structure TrainingStudent : Type where
  id : ℤ
  data : StudentData
deriving DecidableEq, Repr

/-- The single Firestore record `training_data/students`, holding the
full process-wide training set. -/
structure TrainingData : Type where
  students : List TrainingStudent
deriving DecidableEq, Repr

/-- The hard-coded `sample_data` seeded by
`predict_with_linear_regression` when `training_data/students` does not
exist (`functions/ml_predict.py`, lines 48-87). -/
def sampleTrainingData : TrainingData :=
  ⟨[⟨1, ⟨some [85, 90, 92], some ⟨some 3.6⟩, some ⟨some 0.3, some 0.7⟩, some 90⟩⟩,
    ⟨2, ⟨some [70, 75, 78], some ⟨some 2.8⟩, some ⟨some 0.5, some 0.5⟩, some 80⟩⟩,
    ⟨3, ⟨some [88, 90, 85], some ⟨some 3.5⟩, some ⟨some 0.4, some 0.6⟩, some 88⟩⟩]⟩

/-- The 4-component feature vector `[avg_previous_grade, gpa,
assignment_weight, exam_weight]` built on lines 117-122 and 143-148 of
`functions/ml_predict.py` (and lines 28-33 and 62-67 of
`Predict/LinearRegression_predict.py`). -/
structure FeatureVector : Type where
  avg_previous_grade : ℚ
  gpa : ℚ
  assignment_weight : ℚ
  exam_weight : ℚ
deriving DecidableEq, Repr

/-- Python dict subscription `d[k]`: raises `KeyError` on an absent
key. -/
def getKey {α : Type} (o : Option α) (k : String) : Except PyExc α :=
  match o with
  | some v => Except.ok v
  | none => Except.error (PyExc.KeyError k)

/-- One iteration of the training loop of
`predict_with_linear_regression` (`functions/ml_predict.py`, lines
106-125; identical to `load_data_from_json` of
`Predict/LinearRegression_predict.py`, lines 17-36): fetch the fields
of one stored student, average the previous grades, and build the
feature row and its label.  An empty `previous_grades` makes
`sum(...) / len(...)` raise `ZeroDivisionError`. -/
def buildTrainingRow (student : TrainingStudent) : Except PyExc (FeatureVector × ℚ) :=
  match getKey student.data.previous_grades "previous_grades" with
  | Except.error e => Except.error e
  | Except.ok previous_grades =>
  match getKey student.data.transcript "transcript" with
  | Except.error e => Except.error e
  | Except.ok transcript =>
  match getKey transcript.GPA "GPA" with
  | Except.error e => Except.error e
  | Except.ok gpa =>
  match getKey student.data.syllabus_info "syllabus_info" with
  | Except.error e => Except.error e
  | Except.ok syllabus_info =>
  match getKey syllabus_info.assignment_weight "assignment_weight" with
  | Except.error e => Except.error e
  | Except.ok assignment_weight =>
  match getKey syllabus_info.exam_weight "exam_weight" with
  | Except.error e => Except.error e
  | Except.ok exam_weight =>
  match getKey student.data.final_grade "final_grade" with
  | Except.error e => Except.error e
  | Except.ok final_grade =>
  if previous_grades.length = 0 then
    Except.error PyExc.ZeroDivisionError
  else
    let avg_previous_grade := previous_grades.sum / (previous_grades.length : ℚ)
    Except.ok (⟨avg_previous_grade, gpa, assignment_weight, exam_weight⟩, final_grade)

/-- The full training loop: the first exception aborts it. -/
def buildTrainingRows : List TrainingStudent → Except PyExc (List (FeatureVector × ℚ))
  | [] => Except.ok []
  | st :: rest =>
    match buildTrainingRow st with
    | Except.error e => Except.error e
    | Except.ok row =>
      match buildTrainingRows rest with
      | Except.error e => Except.error e
      | Except.ok rows => Except.ok (row :: rows)

/-- The inference-time feature construction of
`predict_with_linear_regression` (`functions/ml_predict.py`, lines
136-148; identical to `predict_new_student` of
`Predict/LinearRegression_predict.py`, lines 50-67). -/
def buildInferenceFeatures (student_data : StudentData) : Except PyExc FeatureVector :=
  match getKey student_data.previous_grades "previous_grades" with
  | Except.error e => Except.error e
  | Except.ok previous_grades =>
  match getKey student_data.transcript "transcript" with
  | Except.error e => Except.error e
  | Except.ok transcript =>
  match getKey transcript.GPA "GPA" with
  | Except.error e => Except.error e
  | Except.ok gpa =>
  match getKey student_data.syllabus_info "syllabus_info" with
  | Except.error e => Except.error e
  | Except.ok syllabus_info =>
  match getKey syllabus_info.assignment_weight "assignment_weight" with
  | Except.error e => Except.error e
  | Except.ok assignment_weight =>
  match getKey syllabus_info.exam_weight "exam_weight" with
  | Except.error e => Except.error e
  | Except.ok exam_weight =>
  if previous_grades.length = 0 then
    Except.error PyExc.ZeroDivisionError
  else
    Except.ok ⟨previous_grades.sum / (previous_grades.length : ℚ), gpa, assignment_weight, exam_weight⟩

/-- `str(e)` for the exceptions wrapped into INTERNAL messages. -/
def pyExcMessage : PyExc → String
  | PyExc.FileNotFoundError m => m
  | PyExc.ValueError m => m
  | PyExc.KeyError k => "'" ++ k ++ "'"
  | PyExc.ZeroDivisionError => "division by zero"

/-- The ML slice of Firestore: the shared `training_data/students`
record (`none` when the document does not exist) and the caller's
`ml_predictions` collection. -/
structure MLStore : Type where
  training_data : Option TrainingData
  ml_predictions : List (String × StudentData × ℚ)
deriving DecidableEq, Repr

/-- The success payload of `predict_with_linear_regression`. -/
structure MLOutput : Type where
  predictionId : String
  grade : ℚ
  model : String
deriving DecidableEq, Repr

/-- `predict_with_linear_regression` (`functions/ml_predict.py`, lines
9-180).  `fit` stands for the scikit-learn collaborator
(`LinearRegression().fit(X, y)` followed by `model.predict`): it maps
the training rows and the inference features to the predicted grade.
Validation (lines 30-37) only checks that the keys `previous_grades`,
`transcript` and `syllabus_info` are present.  When the shared
training record does not exist, the hard-coded sample data is seeded
into it (lines 44-98).  The training/inference block (lines 101-180)
sits in `try: ... except Exception`, whose handler re-raises INTERNAL
with the cause's message. -/
def predict_with_linear_regression
    (fit : List (FeatureVector × ℚ) → FeatureVector → ℚ)
    (s : MLStore) (auth : Option String) (studentData : Option StudentData) (newId : String) :
    MLStore × Except HttpsErr MLOutput :=
  match auth with
  | none => (s, Except.error ⟨ErrorCode.UNAUTHENTICATED, "User must be authenticated"⟩)
  | some _ =>
    match studentData with
    | none => (s, Except.error ⟨ErrorCode.INVALID_ARGUMENT, "Student data is required"⟩)
    | some student_data =>
      if student_data.isEmptyDict then
        (s, Except.error ⟨ErrorCode.INVALID_ARGUMENT, "Student data is required"⟩)
      else if student_data.previous_grades.isNone then
        (s, Except.error ⟨ErrorCode.INVALID_ARGUMENT, "Missing required field: previous_grades"⟩)
      else if student_data.transcript.isNone then
        (s, Except.error ⟨ErrorCode.INVALID_ARGUMENT, "Missing required field: transcript"⟩)
      else if student_data.syllabus_info.isNone then
        (s, Except.error ⟨ErrorCode.INVALID_ARGUMENT, "Missing required field: syllabus_info"⟩)
      else
        let seeded :=
          match s.training_data with
          | none => ({ s with training_data := some sampleTrainingData }, sampleTrainingData)
          | some td => (s, td)
        let s1 := seeded.1
        let training_data := seeded.2
        let body : Except PyExc (MLStore × MLOutput) :=
          match buildTrainingRows training_data.students with
          | Except.error e => Except.error e
          | Except.ok rows =>
            match buildInferenceFeatures student_data with
            | Except.error e => Except.error e
            | Except.ok features =>
              let predicted_grade := fit rows features
              let s2 := { s1 with ml_predictions := setKey newId (student_data, predicted_grade) s1.ml_predictions }
              Except.ok (s2, ⟨newId, predicted_grade, "linear_regression"⟩)
        match body with
        | Except.error e =>
            (s1, Except.error ⟨ErrorCode.INTERNAL,
              "Error predicting with linear regression: " ++ pyExcMessage e⟩)
        | Except.ok r => (r.1, Except.ok r.2)

/-- `add_training_data` (`functions/ml_predict.py`, lines 182-256):
validate the four required keys, then append the payload to the shared
training set with id `max_id + 1`, where `max_id` scans the existing
ids starting from 0 (lines 222-228); when the record does not exist,
create it with the single entry id 1 (lines 234-245). -/
def add_training_data (s : MLStore) (auth : Option String) (studentData : Option StudentData) :
    MLStore × Except HttpsErr String :=
  match auth with
  | none => (s, Except.error ⟨ErrorCode.UNAUTHENTICATED, "User must be authenticated"⟩)
  | some _ =>
    match studentData with
    | none => (s, Except.error ⟨ErrorCode.INVALID_ARGUMENT, "Student data is required"⟩)
    | some student_data =>
      if student_data.isEmptyDict then
        (s, Except.error ⟨ErrorCode.INVALID_ARGUMENT, "Student data is required"⟩)
      else if student_data.previous_grades.isNone then
        (s, Except.error ⟨ErrorCode.INVALID_ARGUMENT, "Missing required field: previous_grades"⟩)
      else if student_data.transcript.isNone then
        (s, Except.error ⟨ErrorCode.INVALID_ARGUMENT, "Missing required field: transcript"⟩)
      else if student_data.syllabus_info.isNone then
        (s, Except.error ⟨ErrorCode.INVALID_ARGUMENT, "Missing required field: syllabus_info"⟩)
      else if student_data.final_grade.isNone then
        (s, Except.error ⟨ErrorCode.INVALID_ARGUMENT, "Missing required field: final_grade"⟩)
      else
        match s.training_data with
        | some training_data =>
          let max_id := training_data.students.foldl
            (fun m st => if st.id > m then st.id else m) 0
          let new_students := training_data.students ++ [⟨max_id + 1, student_data⟩]
          ({ s with training_data := some ⟨new_students⟩ },
           Except.ok "Training data added successfully")
        | none =>
          ({ s with training_data := some ⟨[⟨1, student_data⟩]⟩ },
           Except.ok "Training data added successfully")

/-! ### C4: the averaging step -/

/-- C4: on a complete student payload with non-empty previous grades,
the training-loop row builder and the inference-time feature builder
produce the same feature vector, whose `avg_previous_grade` is the
exact arithmetic mean of the grades (characterised by
`avg * length = sum` with `length ≠ 0`). -/
theorem C4_avg_exact_mean_same_computation (i : ℤ) (gs : List ℚ) (gpa aw ew fg : ℚ)
    (h : gs ≠ []) :
    buildInferenceFeatures ⟨some gs, some ⟨some gpa⟩, some ⟨some aw, some ew⟩, some fg⟩ =
      Except.ok ⟨gs.sum / (gs.length : ℚ), gpa, aw, ew⟩ ∧
    buildTrainingRow ⟨i, ⟨some gs, some ⟨some gpa⟩, some ⟨some aw, some ew⟩, some fg⟩⟩ =
      Except.ok (⟨gs.sum / (gs.length : ℚ), gpa, aw, ew⟩, fg) ∧
    (gs.sum / (gs.length : ℚ)) * (gs.length : ℚ) = gs.sum ∧
    (gs.length : ℚ) ≠ 0 := by
  have hlen : gs.length ≠ 0 := by simpa using h
  have hlenQ : (gs.length : ℚ) ≠ 0 := Nat.cast_ne_zero.mpr hlen
  refine ⟨?_, ?_, ?_, hlenQ⟩
  · simp [buildInferenceFeatures, getKey, hlen]
  · simp [buildTrainingRow, getKey, hlen]
  · exact div_mul_cancel₀ _ hlenQ

/-- Witness for C4 at the first sample student. -/
theorem C4_avg_exact_mean_same_computation_witness :
    (([85, 90, 92] : List ℚ) ≠ []) ∧
    buildInferenceFeatures
        ⟨some [85, 90, 92], some ⟨some 3.6⟩, some ⟨some 0.3, some 0.7⟩, some 90⟩ =
      Except.ok ⟨89, 3.6, 0.3, 0.7⟩ := by
  refine ⟨by decide, ?_⟩
  rw [(C4_avg_exact_mean_same_computation 1 [85, 90, 92] 3.6 0.3 0.7 90 (by decide)).1]
  norm_num [List.sum_cons, List.sum_nil]

/-! ### C5: empty previous grades reach the division -/

/-- Concrete evaluation of the training loop on the seeded sample
data. -/
theorem sampleRows_eval :
    buildTrainingRows sampleTrainingData.students =
      Except.ok [(⟨89, 3.6, 0.3, 0.7⟩, 90), (⟨223 / 3, 2.8, 0.5, 0.5⟩, 80),
        (⟨263 / 3, 3.5, 0.4, 0.6⟩, 88)] := by
  norm_num [buildTrainingRows, buildTrainingRow, sampleTrainingData, getKey,
    List.sum_cons, List.sum_nil]

/-- C5 counterexample: a payload whose `previous_grades` key holds the
empty list passes validation, and the operation fails with INTERNAL
wrapping `division by zero` — the mean's division is attempted —
rather than with the INVALID_ARGUMENT validation error. -/
theorem C5_counterexample_division_attempted :
    (predict_with_linear_regression (fun _ _ => 0) ⟨some sampleTrainingData, []⟩ (some "u")
        (some ⟨some [], some ⟨some 3⟩, some ⟨some 0.5, some 0.5⟩, none⟩) "p1").2 =
      Except.error ⟨ErrorCode.INTERNAL,
        "Error predicting with linear regression: division by zero"⟩ ∧
    ErrorCode.INTERNAL ≠ ErrorCode.INVALID_ARGUMENT := by
  refine ⟨?_, ?_⟩
  · simp [predict_with_linear_regression, StudentData.isEmptyDict, sampleRows_eval,
      buildInferenceFeatures, getKey, pyExcMessage]
  · intro h
    exact ErrorCode.noConfusion h

/-- C5 amended: only the absence of the top-level keys
`previous_grades`, `transcript`, `syllabus_info` yields the
INVALID_ARGUMENT validation error; an empty `previous_grades` list (or
a `transcript` lacking `GPA`) passes validation, reaches the
mean-computing division (respectively the nested key lookup) inside
the `try` block, and surfaces as INTERNAL wrapping the
`ZeroDivisionError` (respectively `KeyError`), with no prediction
stored. -/
theorem C5_amended_internal_not_validation
    (fit : List (FeatureVector × ℚ) → FeatureVector → ℚ) (s : MLStore) (uid newId : String)
    (tr : TranscriptData) (si : SyllabusInfo) (fg : Option ℚ) (gpa aw ew : ℚ)
    (hs : s.training_data = some sampleTrainingData) :
    (predict_with_linear_regression fit s (some uid)
        (some ⟨none, some tr, some si, fg⟩) newId).2 =
      Except.error ⟨ErrorCode.INVALID_ARGUMENT, "Missing required field: previous_grades"⟩ ∧
    (predict_with_linear_regression fit s (some uid)
        (some ⟨some [], some ⟨some gpa⟩, some ⟨some aw, some ew⟩, fg⟩) newId).2 =
      Except.error ⟨ErrorCode.INTERNAL,
        "Error predicting with linear regression: division by zero"⟩ ∧
    (predict_with_linear_regression fit s (some uid)
        (some ⟨some [], some ⟨some gpa⟩, some ⟨some aw, some ew⟩, fg⟩) newId).1 = s ∧
    (predict_with_linear_regression fit s (some uid)
        (some ⟨some [80], some ⟨none⟩, some ⟨some aw, some ew⟩, fg⟩) newId).2 =
      Except.error ⟨ErrorCode.INTERNAL,
        "Error predicting with linear regression: 'GPA'"⟩ := by
  refine ⟨?_, ?_, ?_, ?_⟩
  · simp [predict_with_linear_regression, StudentData.isEmptyDict]
  · simp [predict_with_linear_regression, StudentData.isEmptyDict, hs, sampleRows_eval,
      buildInferenceFeatures, getKey, pyExcMessage]
  · simp [predict_with_linear_regression, StudentData.isEmptyDict, hs, sampleRows_eval,
      buildInferenceFeatures, getKey, pyExcMessage]
  · simp [predict_with_linear_regression, StudentData.isEmptyDict, hs, sampleRows_eval,
      buildInferenceFeatures, getKey, pyExcMessage]

/-- Witness for C5 amended at a concrete store and payload. -/
theorem C5_amended_internal_not_validation_witness :
    ((⟨some sampleTrainingData, []⟩ : MLStore).training_data = some sampleTrainingData) ∧
    (predict_with_linear_regression (fun _ _ => 0) ⟨some sampleTrainingData, []⟩ (some "u")
        (some ⟨some [], some ⟨some 3⟩, some ⟨some 0.5, some 0.5⟩, none⟩) "p1").1 =
      (⟨some sampleTrainingData, []⟩ : MLStore) := by
  refine ⟨rfl, ?_⟩
  exact (C5_amended_internal_not_validation (fun _ _ => 0) ⟨some sampleTrainingData, []⟩
    "u" "p1" ⟨some 3⟩ ⟨some 0.5, some 0.5⟩ none 3 0.5 0.5 rfl).2.2.1

/-! ### C7: id assignment and append-only training set -/

/-- The accumulator of the `max_id` scan only grows. -/
theorem maxIdScan_ge (l : List TrainingStudent) (m : ℤ) :
    m ≤ l.foldl (fun acc st => if st.id > acc then st.id else acc) m := by
  induction l generalizing m with
  | nil => simp
  | cons st rest ih =>
    simp only [List.foldl_cons]
    by_cases h : st.id > m
    · rw [if_pos h]
      exact le_trans (le_of_lt h) (ih st.id)
    · rw [if_neg h]
      exact ih m

/-- The `max_id` scan dominates every id in the list. -/
theorem maxIdScan_mem_le (l : List TrainingStudent) (m : ℤ) (st : TrainingStudent)
    (hst : st ∈ l) :
    st.id ≤ l.foldl (fun acc s => if s.id > acc then s.id else acc) m := by
  induction l generalizing m with
  | nil => cases hst
  | cons a rest ih =>
    simp only [List.foldl_cons]
    rcases List.mem_cons.mp hst with h | h
    · subst h
      by_cases ha : st.id > m
      · rw [if_pos ha]
        exact maxIdScan_ge rest st.id
      · rw [if_neg ha]
        exact le_trans (not_lt.mp ha) (maxIdScan_ge rest m)
    · by_cases ha : a.id > m
      · rw [if_pos ha]
        exact ih a.id h
      · rw [if_neg ha]
        exact ih m h

/-- The `max_id` scan returns its seed or an id attained in the
list. -/
theorem maxIdScan_attained (l : List TrainingStudent) (m : ℤ) :
    l.foldl (fun acc st => if st.id > acc then st.id else acc) m = m ∨
      ∃ st ∈ l, st.id = l.foldl (fun acc st => if st.id > acc then st.id else acc) m := by
  induction l generalizing m with
  | nil => exact Or.inl rfl
  | cons a rest ih =>
    simp only [List.foldl_cons]
    by_cases ha : a.id > m
    · rw [if_pos ha]
      rcases ih a.id with h | ⟨st, hst, he⟩
      · exact Or.inr ⟨a, List.mem_cons_self a rest, h.symm⟩
      · exact Or.inr ⟨st, List.mem_cons_of_mem a hst, he⟩
    · rw [if_neg ha]
      rcases ih m with h | ⟨st, hst, he⟩
      · exact Or.inl h
      · exact Or.inr ⟨st, List.mem_cons_of_mem a hst, he⟩

/-- C7: on a complete payload, `add_training_data` with an existing
non-empty training set (whose ids are at least 1, as the system
assigns them) appends one new example carrying id `max(existing) + 1`
— strictly above every stored id and exactly one above an attained id
— leaving every previously stored example in place and unchanged; when
the training record does not exist, the single created example has
id 1. -/
theorem C7_training_set_append_only_max_id (s s' : MLStore) (uid : String) (sd : StudentData)
    (td : TrainingData)
    (hsd1 : sd.previous_grades.isSome = true) (hsd2 : sd.transcript.isSome = true)
    (hsd3 : sd.syllabus_info.isSome = true) (hsd4 : sd.final_grade.isSome = true)
    (hex : s.training_data = some td) (hne : td.students ≠ [])
    (hpos : ∀ st ∈ td.students, 1 ≤ st.id)
    (hnone : s'.training_data = none) :
    (∃ newId : ℤ,
      (add_training_data s (some uid) (some sd)).1.training_data =
        some ⟨td.students ++ [⟨newId, sd⟩]⟩ ∧
      (∀ st ∈ td.students, st.id < newId) ∧
      (∃ st ∈ td.students, st.id = newId - 1)) ∧
    (add_training_data s (some uid) (some sd)).2 =
      Except.ok "Training data added successfully" ∧
    (add_training_data s' (some uid) (some sd)).1.training_data = some ⟨[⟨1, sd⟩]⟩ := by
  have hempty : sd.isEmptyDict = false := by
    unfold StudentData.isEmptyDict
    rcases h : sd.previous_grades with _ | pg
    · rw [h] at hsd1
      simp at hsd1
    · simp
  have h1 : sd.previous_grades.isNone = false := by
    rcases h : sd.previous_grades with _ | v
    · rw [h] at hsd1; simp at hsd1
    · simp
  have h2 : sd.transcript.isNone = false := by
    rcases h : sd.transcript with _ | v
    · rw [h] at hsd2; simp at hsd2
    · simp
  have h3 : sd.syllabus_info.isNone = false := by
    rcases h : sd.syllabus_info with _ | v
    · rw [h] at hsd3; simp at hsd3
    · simp
  have h4 : sd.final_grade.isNone = false := by
    rcases h : sd.final_grade with _ | v
    · rw [h] at hsd4; simp at hsd4
    · simp
  set M := td.students.foldl (fun acc st => if st.id > acc then st.id else acc) 0 with hM
  have hattain : ∃ st ∈ td.students, st.id = M := by
    rcases maxIdScan_attained td.students 0 with h0 | h
    · exfalso
      rcases List.exists_mem_of_ne_nil td.students hne with ⟨st0, hst0⟩
      have hle : st0.id ≤ M := maxIdScan_mem_le td.students 0 st0 hst0
      have : (1 : ℤ) ≤ st0.id := hpos st0 hst0
      rw [← hM] at h0
      omega
    · exact h
  refine ⟨⟨M + 1, ?_, ?_, ?_⟩, ?_, ?_⟩
  · simp [add_training_data, hempty, h1, h2, h3, h4, hex, ← hM]
  · intro st hst
    have := maxIdScan_mem_le td.students 0 st hst
    omega
  · rcases hattain with ⟨st, hst, he⟩
    exact ⟨st, hst, by omega⟩
  · simp [add_training_data, hempty, h1, h2, h3, h4, hex]
  · simp [add_training_data, hempty, h1, h2, h3, h4, hnone]

/-- Witness for C7 at the sample training set and a concrete
payload. -/
theorem C7_training_set_append_only_max_id_witness :
    (sampleTrainingData.students ≠ []) ∧
    (∀ st ∈ sampleTrainingData.students, 1 ≤ st.id) ∧
    (∃ newId : ℤ,
      (add_training_data ⟨some sampleTrainingData, []⟩ (some "u")
          (some ⟨some [75], some ⟨some 3⟩, some ⟨some 0.5, some 0.5⟩, some 82⟩)).1.training_data =
        some ⟨sampleTrainingData.students ++
          [⟨newId, ⟨some [75], some ⟨some 3⟩, some ⟨some 0.5, some 0.5⟩, some 82⟩⟩]⟩ ∧
      (∀ st ∈ sampleTrainingData.students, st.id < newId) ∧
      (∃ st ∈ sampleTrainingData.students, st.id = newId - 1)) := by
  refine ⟨by decide, by decide, ?_⟩
  exact (C7_training_set_append_only_max_id ⟨some sampleTrainingData, []⟩ ⟨none, []⟩ "u"
    ⟨some [75], some ⟨some 3⟩, some ⟨some 0.5, some 0.5⟩, some 82⟩ sampleTrainingData
    rfl rfl rfl rfl rfl (by decide) (by decide) rfl).1

/-! ### C10: seeding of the sample training data -/

/-- C10: when the shared `training_data/students` record is absent,
`predict_with_linear_regression` on a complete payload does not fail:
it first writes the hard-coded three-example sample set into the
shared record and then trains on exactly those seeded rows, returning
and storing the fitted prediction. -/
theorem C10_missing_training_data_seeded
    (fit : List (FeatureVector × ℚ) → FeatureVector → ℚ) (s : MLStore)
    (uid newId : String) (gs : List ℚ) (gpa aw ew : ℚ) (fg : Option ℚ)
    (hnone : s.training_data = none) (hgs : gs ≠ []) :
    (predict_with_linear_regression fit s (some uid)
        (some ⟨some gs, some ⟨some gpa⟩, some ⟨some aw, some ew⟩, fg⟩) newId).1 =
      { training_data := some sampleTrainingData,
        ml_predictions :=
          setKey newId
            (⟨some gs, some ⟨some gpa⟩, some ⟨some aw, some ew⟩, fg⟩,
             fit [(⟨89, 3.6, 0.3, 0.7⟩, 90), (⟨223 / 3, 2.8, 0.5, 0.5⟩, 80),
               (⟨263 / 3, 3.5, 0.4, 0.6⟩, 88)]
               ⟨gs.sum / (gs.length : ℚ), gpa, aw, ew⟩)
            s.ml_predictions } ∧
    (predict_with_linear_regression fit s (some uid)
        (some ⟨some gs, some ⟨some gpa⟩, some ⟨some aw, some ew⟩, fg⟩) newId).2 =
      Except.ok ⟨newId,
        fit [(⟨89, 3.6, 0.3, 0.7⟩, 90), (⟨223 / 3, 2.8, 0.5, 0.5⟩, 80),
          (⟨263 / 3, 3.5, 0.4, 0.6⟩, 88)]
          ⟨gs.sum / (gs.length : ℚ), gpa, aw, ew⟩, "linear_regression"⟩ := by
  have hlen : gs.length ≠ 0 := by simpa using hgs
  constructor
  · simp [predict_with_linear_regression, StudentData.isEmptyDict, hnone, sampleRows_eval,
      buildInferenceFeatures, getKey, hlen]
  · simp [predict_with_linear_regression, StudentData.isEmptyDict, hnone, sampleRows_eval,
      buildInferenceFeatures, getKey, hlen]

/-- Witness for C10 with the constant-zero collaborator and a concrete
payload. -/
theorem C10_missing_training_data_seeded_witness :
    ((⟨none, []⟩ : MLStore).training_data = none) ∧
    (([80, 90] : List ℚ) ≠ []) ∧
    (predict_with_linear_regression (fun _ _ => 0) ⟨none, []⟩ (some "u")
        (some ⟨some [80, 90], some ⟨some 3⟩, some ⟨some 0.5, some 0.5⟩, none⟩) "p1").1 =
      { training_data := some sampleTrainingData,
        ml_predictions :=
          setKey "p1"
            (⟨some [80, 90], some ⟨some 3⟩, some ⟨some 0.5, some 0.5⟩, none⟩, 0) [] } := by
  refine ⟨rfl, by decide, ?_⟩
  exact (C10_missing_training_data_seeded (fun _ _ => 0) ⟨none, []⟩ "u" "p1" [80, 90]
    3 0.5 0.5 none rfl (by decide)).1

/-! ## Prompt predictor parse fallback (`functions/openai_api.py`) -/

/-- JSON values as returned by Python's `json.loads`. -/
inductive Json : Type
  | null : Json
  | bool (b : Bool) : Json
  | num (q : ℚ) : Json
  | str (s : String) : Json
  | arr (items : List Json) : Json
  | obj (fields : List (String × Json)) : Json

/-- Lines 160-165 of `functions/openai_api.py`, inside
`predict_final_grade`: parse the model's reply as JSON; on
`json.JSONDecodeError` fall back to the two-key dict holding
`grade = 0` and the raw reply as `reasoning`.  `jsonLoads` stands for
Python's `json.loads`, returning `none` exactly on text that is not
valid JSON.  The resulting value is what gets persisted and returned
— no further key is added to it. -/
def parsePredictionText (jsonLoads : String → Option Json) (prediction_text : String) : Json :=
  match jsonLoads prediction_text with
  | some prediction => prediction
  | none => Json.obj [("grade", Json.num 0), ("reasoning", Json.str prediction_text)]

/-- Model of `json.loads` on the one plain-text reply used below: that
reply is not valid JSON, so the parser fails on it. -/
def jsonLoadsPlainText : String → Option Json := fun _ => none

/-- Model of `json.loads` on the one well-formed reply used below: the
textual JSON object with `grade = 0` and the same reasoning string
parses successfully. -/
def jsonLoadsWellFormed : String → Option Json := fun s =>
  if s = "\x7b\"grade\": 0, \"reasoning\": \"Solid effort, expect a B+.\"\x7d" then
    some (Json.obj [("grade", Json.num 0), ("reasoning", Json.str "Solid effort, expect a B+.")])
  else none

/-- C6 counterexample: the fallback result for a non-JSON reply is the
bare two-key object — `findKey` finds no `unparsed` key (nor any other
marker) on it — and it coincides exactly with the stored result of a
genuinely parsed zero-grade reply, so callers cannot distinguish a
parse failure from a genuine zero. -/
theorem C6_counterexample_no_unparsed_flag :
    parsePredictionText jsonLoadsPlainText "Solid effort, expect a B+." =
      Json.obj [("grade", Json.num 0), ("reasoning", Json.str "Solid effort, expect a B+.")] ∧
    parsePredictionText jsonLoadsWellFormed
        "\x7b\"grade\": 0, \"reasoning\": \"Solid effort, expect a B+.\"\x7d" =
      Json.obj [("grade", Json.num 0), ("reasoning", Json.str "Solid effort, expect a B+.")] ∧
    findKey "unparsed" [("grade", Json.num 0),
      ("reasoning", Json.str "Solid effort, expect a B+.")] = none := by
  refine ⟨rfl, ?_, rfl⟩
  rw [parsePredictionText, jsonLoadsWellFormed, if_pos rfl]

/-- C6 amended: on any reply that is not valid JSON the prompt
predictor does not fail — it falls back to the object with `grade = 0`
and the raw reply as `reasoning` — but that object carries no
`unparsed` marker: its only keys are `grade` and `reasoning`, so the
result is indistinguishable from a successfully parsed zero-grade
reply. -/
theorem C6_fallback_grade_zero_raw_reasoning (jsonLoads : String → Option Json)
    (text : String) (h : jsonLoads text = none) :
    parsePredictionText jsonLoads text =
      Json.obj [("grade", Json.num 0), ("reasoning", Json.str text)] ∧
    findKey "grade" [("grade", Json.num 0), ("reasoning", Json.str text)] =
      some (Json.num 0) ∧
    findKey "reasoning" [("grade", Json.num 0), ("reasoning", Json.str text)] =
      some (Json.str text) ∧
    findKey "unparsed" [("grade", Json.num 0), ("reasoning", Json.str text)] = none := by
  refine ⟨?_, rfl, rfl, rfl⟩
  rw [parsePredictionText, h]

/-- Witness for C6 amended at a concrete non-JSON reply. -/
theorem C6_fallback_grade_zero_raw_reasoning_witness :
    jsonLoadsPlainText "I would guess around 85." = none ∧
    parsePredictionText jsonLoadsPlainText "I would guess around 85." =
      Json.obj [("grade", Json.num 0), ("reasoning", Json.str "I would guess around 85.")] := by
  refine ⟨rfl, ?_⟩
  exact (C6_fallback_grade_zero_raw_reasoning jsonLoadsPlainText
    "I would guess around 85." rfl).1

end GradingCalendar
